import Mathlib

/-!
Verification of the WAV fixture generators of dekzer-oss/wav-decoder.

The repository contains four Python scripts that generate well-formed and
malformed WAV (RIFF) container files.  This file gives a shallow embedding
of the pure computational core of those scripts — the G.711 companders,
the 8-bit and 24-bit PCM sample encoders, the RIFF size computations, the
chunk layouts, and the malformed-fixture byte recipes — and proves the
specification claims about them.

Conventions:
* Python integers are `Int` (or `Nat` once known non-negative); Python
  floor division `//` and arithmetic right shift on `Int` are `Int.fdiv`.
* Byte strings are `List Nat`, each element a byte value.
* `struct.pack` fields become explicit little/big endian byte lists.
-/

namespace WavGen

/-- Endianness selector, from the `'endian': 'little' | 'big'` config keys. -/
inductive Endian where
  | little
  | big
deriving DecidableEq, Repr

/-- Codec selector, from the `'codec'` config keys. -/
inductive Codec where
  | pcm
  | float
  | alaw
  | ulaw
deriving DecidableEq, Repr

/-- One row of `FIXTURE_CONFIGS` / `SWEEP_CONFIGS` / `TEST_CONFIGS`. -/
structure Config where
  codec : Codec
  bit_depth : Nat
  channels : Nat
  endian : Endian
deriving DecidableEq, Repr

/-- The `format_tags` mapping `{'pcm': 1, 'float': 3, 'alaw': 6, 'ulaw': 7}`. -/
def formatTag : Codec → Nat
  | .pcm => 1
  | .float => 3
  | .alaw => 6
  | .ulaw => 7

/-! ## G.711 companders

`scripts/gen-wav-fixtures.py` defines `convert_linear_to_alaw` and
`convert_linear_to_ulaw`; `scripts/generate_wav_fixtures.py` defines the
textually identical `linear_to_alaw` and `linear_to_ulaw`;
`scripts/generate_fixtures.py` defines a *different* pair under the same
names.  All are embedded below. -/

/-- The `boundaries` list of `convert_linear_to_alaw`. -/
def alawBoundaries : List Nat := [32, 64, 128, 256, 512, 1024, 2048, 4096]

/-- The exponent-search loop of `convert_linear_to_alaw`:
`exponent = 7; for idx, boundary in enumerate(boundaries): if pcm_value < boundary: exponent = idx; break`. -/
def alawExpGo (mag : Nat) : List Nat → Nat → Nat
  | [], _ => 7
  | b :: rest, idx => if mag < b then idx else alawExpGo mag rest (idx + 1)

/-- `convert_linear_to_alaw` from `scripts/gen-wav-fixtures.py` (lines 38-57). -/
def convert_linear_to_alaw (pcm_value : Int) : Nat :=
  let clamped := max (-32768) (min pcm_value 32767)
  let sign : Nat := if clamped < 0 then 0x00 else 0x80
  let mag := clamped.natAbs
  let em : Nat × Nat :=
    if mag < 32 then
      (0, mag >>> 1)
    else
      let exponent := alawExpGo mag alawBoundaries 0
      let shift := if 1 < exponent then exponent + 3 else 4
      (exponent, (mag >>> shift) &&& 0x0F)
  (((em.1 <<< 4) ||| em.2) ^^^ 0x55) ||| sign

/-- `convert_linear_to_ulaw` from `scripts/gen-wav-fixtures.py` (lines 59-77).
The descending exponent loop `for exp in range(7, -1, -1)` is embedded as
`ulawFindExp` over the explicit list `[7, 6, 5, 4, 3, 2, 1, 0]`. -/
def ulawExps : List Nat := [7, 6, 5, 4, 3, 2, 1, 0]

/-- The exponent-search loop of `convert_linear_to_ulaw`:
first `exp` (descending from 7) with `pcm_value >= (1 << (exp + 5))`,
or 7 when the loop falls through. -/
def ulawFindExp (biased : Nat) : List Nat → Nat
  | [] => 7
  | e :: rest => if 1 <<< (e + 5) ≤ biased then e else ulawFindExp biased rest

/-- `convert_linear_to_ulaw` from `scripts/gen-wav-fixtures.py`:
clamp to `[-32767, 32767]`, pick the sign byte, take the magnitude,
clamp it to `MAX_VALUE = 32635`, add `BIAS = 132`, search the exponent,
extract the mantissa and xor with the sign byte. -/
def convert_linear_to_ulaw (pcm_value : Int) : Nat :=
  let clamped := max (-32767) (min pcm_value 32767)
  let sign : Nat := if clamped < 0 then 0xFF else 0x7F
  let biased := min clamped.natAbs 32635 + 132
  let exponent := ulawFindExp biased ulawExps
  let mantissa := (biased >>> (exponent + 1)) &&& 0x0F
  ((exponent <<< 4) ||| mantissa) ^^^ sign

namespace GWF

/-- `linear_to_alaw` from `scripts/generate_wav_fixtures.py` (lines 41-58);
the body is textually identical to `convert_linear_to_alaw`. -/
def linear_to_alaw (pcm_val : Int) : Nat :=
  let clamped := max (-32768) (min pcm_val 32767)
  let sign : Nat := if clamped < 0 then 0x00 else 0x80
  let mag := clamped.natAbs
  let em : Nat × Nat :=
    if mag < 32 then
      (0, mag >>> 1)
    else
      let exponent := alawExpGo mag alawBoundaries 0
      let shift := if 1 < exponent then exponent + 3 else 4
      (exponent, (mag >>> shift) &&& 0x0F)
  (((em.1 <<< 4) ||| em.2) ^^^ 0x55) ||| sign

/-- `linear_to_ulaw` from `scripts/generate_wav_fixtures.py` (lines 60-75);
the body is textually identical to `convert_linear_to_ulaw`. -/
def linear_to_ulaw (pcm_val : Int) : Nat :=
  let clamped := max (-32767) (min pcm_val 32767)
  let sign : Nat := if clamped < 0 then 0xFF else 0x7F
  let biased := min clamped.natAbs 32635 + 132
  let exponent := ulawFindExp biased ulawExps
  let mantissa := (biased >>> (exponent + 1)) &&& 0x0F
  ((exponent <<< 4) ||| mantissa) ^^^ sign

end GWF

namespace GenFixtures

/-- `linear_to_alaw` from `scripts/generate_fixtures.py` (lines 26-53): a
different A-law table working in the 13-bit domain.  Python `pcm_val >> 3`
on a possibly negative int is arithmetic shift, i.e. `Int.fdiv pcm_val 8`. -/
def linear_to_alaw (pcm_val : Int) : Nat :=
  let p := Int.fdiv pcm_val 8
  let mask : Nat := if 0 ≤ p then 0xD5 else 0x55
  let n : Nat := if 0 ≤ p then p.toNat else (-p - 1).toNat
  let v : Nat :=
    if n < 32 then n
    else if n < 64 then ((n - 32) >>> 1) + 32
    else if n < 128 then ((n - 64) >>> 2) + 48
    else if n < 256 then ((n - 128) >>> 3) + 64
    else if n < 512 then ((n - 256) >>> 4) + 80
    else if n < 1024 then ((n - 512) >>> 5) + 96
    else if n < 2048 then ((n - 1024) >>> 6) + 112
    else 127
  v ^^^ mask

/-- `linear_to_ulaw` from `scripts/generate_fixtures.py` (lines 56-66): a
linear-interpolation table, not the G.711 exponent search.  Python `//`
is floor division, i.e. `Int.fdiv`. -/
def linear_to_ulaw (pcm_val : Int) : Int :=
  let p := max (-32635) (min pcm_val 32635)
  let v : Int :=
    if 0 ≤ p then 132 + Int.fdiv (p * 32) 32635
    else 132 - Int.fdiv (|p| * 32) 32635
  255 - v

end GenFixtures

/-! ## Spec-side encoders

These two definitions follow the wording of spec §4.1 ("A-law encode" and
"μ-law encode") and are compared against the source embeddings above. -/

/-- Modelled from the spec §4.1: "find the smallest index `i` in boundaries
`{32,64,128,256,512,1024,2048,4096}` such that magnitude < boundary"
(claim C1 adds: "7 if none"), written as an explicit descending chain. -/
def specAlawExponent (mag : Nat) : Nat :=
  if mag < 32 then 0
  else if mag < 64 then 1
  else if mag < 128 then 2
  else if mag < 256 then 3
  else if mag < 512 then 4
  else if mag < 1024 then 5
  else if mag < 2048 then 6
  else if mag < 4096 then 7
  else 7

/-- The A-law byte prescribed by spec §4.1: clamp to `[-32768, 32767]`,
separate sign; magnitude `< 32` gives exponent 0 with mantissa
`magnitude >> 1`; otherwise exponent from the boundary table, shift
`exponent+3` if `exponent > 1` else 4, mantissa `(magnitude >> shift) & 0xF`;
combine `(exponent<<4)|mantissa`, xor `0x55`, or the sign bit
(`0x80` exactly when the input is non-negative). -/
def specAlawEncode (x : Int) : Nat :=
  let clamped := max (-32768) (min x 32767)
  let sign : Nat := if clamped < 0 then 0x00 else 0x80
  let mag := clamped.natAbs
  let em : Nat × Nat :=
    if mag < 32 then
      (0, mag >>> 1)
    else
      let exponent := specAlawExponent mag
      let shift := if 1 < exponent then exponent + 3 else 4
      (exponent, (mag >>> shift) &&& 0x0F)
  (((em.1 <<< 4) ||| em.2) ^^^ 0x55) ||| sign

/-- Modelled from the spec §4.1: "find the largest exponent `e∈[0..7]` with
`biased >= (1 << (e+5))`", written as a descending chain.  When no such `e`
exists the spec leaves the value unconstrained; we pick 0 here.  The branch
is unreachable in `specUlawEncode` because `biased ≥ 132 > 32 = 1 << 5`. -/
def specUlawExponent (biased : Nat) : Nat :=
  if 1 <<< (7 + 5) ≤ biased then 7
  else if 1 <<< (6 + 5) ≤ biased then 6
  else if 1 <<< (5 + 5) ≤ biased then 5
  else if 1 <<< (4 + 5) ≤ biased then 4
  else if 1 <<< (3 + 5) ≤ biased then 3
  else if 1 <<< (2 + 5) ≤ biased then 2
  else if 1 <<< (1 + 5) ≤ biased then 1
  else if 1 <<< (0 + 5) ≤ biased then 0
  else 0

/-- The μ-law byte prescribed by spec §4.1 / claim C2: bias 132, max 32635;
clamp the magnitude to max, add the bias, take the largest exponent `e` with
`biased ≥ 1 << (e+5)`, mantissa `(biased >> (e+1)) & 0xF`, combine and xor
with `0xFF` for negative input, `0x7F` otherwise. -/
def specUlawEncode (x : Int) : Nat :=
  let sign : Nat := if x < 0 then 0xFF else 0x7F
  let biased := min x.natAbs 32635 + 132
  let exponent := specUlawExponent biased
  let mantissa := (biased >>> (exponent + 1)) &&& 0x0F
  ((exponent <<< 4) ||| mantissa) ^^^ sign

/-- The exponent loop of the source computes exactly the spec's
smallest-boundary-index function. -/
theorem alawExpGo_eq (mag : Nat) :
    alawExpGo mag alawBoundaries 0 = specAlawExponent mag := by
  simp [alawBoundaries, alawExpGo, specAlawExponent]

/-- For any biased magnitude ≥ 132 (always the case after adding the bias),
the descending source loop computes the spec's largest-exponent function. -/
theorem ulawFindExp_eq (biased : Nat) (h : 132 ≤ biased) :
    ulawFindExp biased ulawExps = specUlawExponent biased := by
  simp only [ulawExps, ulawFindExp, specUlawExponent]
  norm_num
  split_ifs <;> omega

/-- Claim C1 (corrected, amended part): the two identical A-law encoders —
`convert_linear_to_alaw` in gen-wav-fixtures.py and `linear_to_alaw` in
generate_wav_fixtures.py — return, for every integer input, exactly the byte
prescribed by the spec §4.1 A-law algorithm.  (The third encoder,
`linear_to_alaw` in generate_fixtures.py, does not; see the
counterexample.) -/
theorem c1_alaw_encoders_match_spec :
    ∀ x : Int, convert_linear_to_alaw x = specAlawEncode x ∧
      GWF.linear_to_alaw x = specAlawEncode x := by
  intro x
  constructor <;>
    simp only [convert_linear_to_alaw, GWF.linear_to_alaw, specAlawEncode, alawExpGo_eq]

/-- Claim C1 (counterexample): at linear input 256, the A-law encoder of
generate_fixtures.py returns 0xF5 = 245 while the spec algorithm prescribes
0x97 = 151, so not every A-law encoder in the repository matches the spec. -/
theorem c1_genfixtures_alaw_differs :
    GenFixtures.linear_to_alaw 256 ≠ specAlawEncode 256 := by decide

/-- Claim C2 (corrected, amended part): the two identical μ-law encoders —
`convert_linear_to_ulaw` in gen-wav-fixtures.py and `linear_to_ulaw` in
generate_wav_fixtures.py — return, for every integer input, exactly the byte
prescribed by the spec §4.1 μ-law algorithm.  (The third encoder,
`linear_to_ulaw` in generate_fixtures.py, does not; see the
counterexample.) -/
theorem c2_ulaw_encoders_match_spec :
    ∀ x : Int, convert_linear_to_ulaw x = specUlawEncode x ∧
      GWF.linear_to_ulaw x = specUlawEncode x := by
  intro x
  have hmag : min (max (-32767) (min x 32767)).natAbs 32635 = min x.natAbs 32635 := by
    omega
  have hexp := ulawFindExp_eq (min x.natAbs 32635 + 132) (Nat.le_add_left 132 _)
  constructor <;>
  · simp only [convert_linear_to_ulaw, GWF.linear_to_ulaw, specUlawEncode, hmag, hexp]
    by_cases hx : x < 0
    · simp [hx, show max (-32767) (min x 32767) < 0 by omega]
    · simp [hx, show ¬max (-32767) (min x 32767) < 0 by omega]

/-- Claim C2 (counterexample): at linear input 0, the μ-law encoder of
generate_fixtures.py returns 123 while the spec algorithm prescribes
0x5F = 95, so not every μ-law encoder in the repository matches the spec. -/
theorem c2_genfixtures_ulaw_differs :
    GenFixtures.linear_to_ulaw 0 ≠ (specUlawEncode 0 : Int) := by decide

/-! ## Byte-level helpers

`struct.pack` fields: a `H` is two bytes, an `I` four bytes, in the chosen
endianness.  Bytes are `Nat` values below 256. -/

/-- Little-endian 16-bit field. -/
def u16le (n : Nat) : List Nat := [n % 256, n / 256 % 256]

/-- Little-endian 32-bit field. -/
def u32le (n : Nat) : List Nat :=
  [n % 256, n / 256 % 256, n / 65536 % 256, n / 16777216 % 256]

/-- 16-bit field in the configured endianness (`endian_char` prefix). -/
def u16 : Endian → Nat → List Nat
  | .little, n => u16le n
  | .big, n => (u16le n).reverse

/-- 32-bit field in the configured endianness. -/
def u32 : Endian → Nat → List Nat
  | .little, n => u32le n
  | .big, n => (u32le n).reverse

/-- `riff_tag = b'RIFF' if endian == 'little' else b'RIFX'`. -/
def riffTag : Endian → List Nat
  | .little => [82, 73, 70, 70]
  | .big => [82, 73, 70, 88]

/-- The four ASCII bytes of `b'WAVE'`. -/
def waveId : List Nat := [87, 65, 86, 69]

/-- The four ASCII bytes of `b'fmt '`. -/
def fmtId : List Nat := [102, 109, 116, 32]

/-- The four ASCII bytes of `b'fact'`. -/
def factId : List Nat := [102, 97, 99, 116]

/-- The four ASCII bytes of `b'data'`. -/
def dataId : List Nat := [100, 97, 116, 97]

/-- `block_align = channels * sample_width_bytes` with
`sample_width_bytes = bit_depth // 8`. -/
def blockAlign (c : Config) : Nat := c.channels * (c.bit_depth / 8)

/-- `total_frames = int(SAMPLE_RATE * DURATION_SECONDS)` = 44100. -/
def totalFrames : Nat := 44100

/-- `data_size = total_frames * block_align`. -/
def dataSize (c : Config) : Nat := totalFrames * blockAlign c

/-- The well-formed RIFF size contract of spec §3: RIFF size =
4 (`WAVE` tag) + sum over chunks of (8 + size + padding), where a chunk of
odd size carries one pad byte. -/
def riffSizeContract (sizes : List Nat) : Nat :=
  4 + (sizes.map fun s => 8 + s + s % 2).sum

namespace GenWav

/-- `fmt_chunk_size` of `generate_sine_wave_files` in gen-wav-fixtures.py:
18 for the companded formats (tags 6 and 7), 16 otherwise. -/
def sineFmtChunkSize (tag : Nat) : Nat := if tag = 6 ∨ tag = 7 then 18 else 16

/-- The `fmt ` chunk written by `generate_sine_wave_files`
(gen-wav-fixtures.py lines 108-121): id, size field, then
`HHIIHH` = tag, channels, rate, byte rate, block align, bit depth, with a
trailing `H` zero for the companded formats. -/
def sineFmtChunk (c : Config) : List Nat :=
  let e := c.endian
  let tag := formatTag c.codec
  let base := u16 e tag ++ u16 e c.channels ++ u32 e 44100 ++
    u32 e (44100 * blockAlign c) ++ u16 e (blockAlign c) ++ u16 e c.bit_depth
  fmtId ++ u32 e (sineFmtChunkSize tag) ++
    (if tag = 6 ∨ tag = 7 then base ++ u16 e 0 else base)

/-- The `fact` chunk written by `generate_sine_wave_files`
(lines 123-125): present exactly when the format tag is not 1, payload the
total frame count. -/
def factChunk (c : Config) : List Nat :=
  if formatTag c.codec ≠ 1 then
    factId ++ u32 c.endian 4 ++ u32 c.endian totalFrames
  else []

/-- The `data` chunk header of the sine path (line 127). -/
def sineDataHeader (c : Config) : List Nat := dataId ++ u32 c.endian (dataSize c)

/-- `file_size = 4 + chunks_size` of the sine path (lines 128-129). -/
def sineFileSize (c : Config) : Nat :=
  4 + ((sineFmtChunk c).length + (factChunk c).length +
    (sineDataHeader c).length + dataSize c)

/-- The byte stream of a sine fixture (lines 134-141), with the sample
payload abstracted as a byte list of length `dataSize`. -/
def sineFileBytes (c : Config) (payload : List Nat) : List Nat :=
  riffTag c.endian ++ u32 c.endian (sineFileSize c) ++ waveId ++
    sineFmtChunk c ++ factChunk c ++ sineDataHeader c ++ payload

/-- The chunk sequence (id, declared size) written by the sine path. -/
def sineChunks (c : Config) : List (List Nat × Nat) :=
  [(fmtId, sineFmtChunkSize (formatTag c.codec))] ++
    (if formatTag c.codec ≠ 1 then [(factId, 4)] else []) ++
    [(dataId, dataSize c)]

/-- The `fmt ` chunk of `generate_frequency_sweep_files`
(gen-wav-fixtures.py lines 192-195): always the 16-byte canonical layout. -/
def sweepFmtChunk (c : Config) : List Nat :=
  let e := c.endian
  fmtId ++ u32 e 16 ++ u16 e (formatTag c.codec) ++ u16 e c.channels ++
    u32 e 44100 ++ u32 e (44100 * blockAlign c) ++ u16 e (blockAlign c) ++
    u16 e c.bit_depth

/-- The `data` chunk header of the sweep path (line 197). -/
def sweepDataHeader (c : Config) : List Nat := dataId ++ u32 c.endian (dataSize c)

/-- `file_size = 4 + chunks_size` of the sweep path (lines 199-200), after
the "FIXED: removed the extra +4" correction. -/
def sweepFileSize (c : Config) : Nat :=
  4 + ((sweepFmtChunk c).length + (sweepDataHeader c).length + dataSize c)

/-- The byte stream of a sweep fixture from gen-wav-fixtures.py. -/
def sweepFileBytes (c : Config) (payload : List Nat) : List Nat :=
  riffTag c.endian ++ u32 c.endian (sweepFileSize c) ++ waveId ++
    sweepFmtChunk c ++ sweepDataHeader c ++ payload

/-- The chunk sequence written by the sweep path: only `fmt ` and `data`,
no `fact` chunk (lines 205-210). -/
def sweepChunks (c : Config) : List (List Nat × Nat) :=
  [(fmtId, 16), (dataId, dataSize c)]

end GenWav

namespace GWF

/-- The `fmt ` chunk of `generate_sweep_wavs` in generate_wav_fixtures.py
(lines 180-183), identical to the gen-wav-fixtures.py layout. -/
def sweepFmtChunk (c : Config) : List Nat :=
  let e := c.endian
  fmtId ++ u32 e 16 ++ u16 e (formatTag c.codec) ++ u16 e c.channels ++
    u32 e 44100 ++ u32 e (44100 * blockAlign c) ++ u16 e (blockAlign c) ++
    u16 e c.bit_depth

/-- The `data` chunk header of `generate_sweep_wavs` (line 184). -/
def sweepDataHeader (c : Config) : List Nat := dataId ++ u32 c.endian (dataSize c)

/-- `file_size = 4 + chunks_size` of `generate_sweep_wavs` (lines 185-186),
where `chunks_size` still carries the extra `+ 4`. -/
def sweepFileSize (c : Config) : Nat :=
  4 + ((sweepFmtChunk c).length + (sweepDataHeader c).length + dataSize c + 4)

/-- The byte stream of a sweep fixture from generate_wav_fixtures.py. -/
def sweepFileBytes (c : Config) (payload : List Nat) : List Nat :=
  riffTag c.endian ++ u32 c.endian (sweepFileSize c) ++ waveId ++
    sweepFmtChunk c ++ sweepDataHeader c ++ payload

/-- The chunk sequence written by `generate_sweep_wavs`: only `fmt ` and
`data`, no `fact` chunk (lines 189-194). -/
def sweepChunks (c : Config) : List (List Nat × Nat) :=
  [(fmtId, 16), (dataId, dataSize c)]

end GWF

namespace GenFixtures

/-- The `fmt ` chunk payload of `generate_wav` in generate_fixtures.py
(lines 99-102): `HHIIHH`. -/
def fmtChunkData (c : Config) : List Nat :=
  let e := c.endian
  u16 e (formatTag c.codec) ++ u16 e c.channels ++ u32 e 44100 ++
    u32 e (44100 * blockAlign c) ++ u16 e (blockAlign c) ++ u16 e c.bit_depth

/-- `file_size = 4 + (8 + fmt_chunk_size) + (8 + data_chunk_size)` with
`fmt_chunk_size = 16` (generate_fixtures.py line 105). -/
def fileSize (c : Config) : Nat := 4 + (8 + 16) + (8 + dataSize c)

/-- The byte stream of a fixture from `generate_wav` (lines 107-117), with
the sample payload abstracted. -/
def fileBytes (c : Config) (payload : List Nat) : List Nat :=
  riffTag c.endian ++ u32 c.endian (fileSize c) ++ waveId ++
    fmtId ++ u32 c.endian 16 ++ fmtChunkData c ++
    dataId ++ u32 c.endian (dataSize c) ++ payload

end GenFixtures

/-- The chunk sequence of `write_float_wav_header` /
`create_float_wav_header` (the exotic float32 NaN/Inf fixture): a 16-byte
`fmt ` chunk and a `data` chunk, no `fact` chunk. -/
def floatHeaderChunks (dataLen : Nat) : List (List Nat × Nat) :=
  [(fmtId, 16), (dataId, dataLen)]

/-! ## Byte-range safety of the companders (claim C10) -/

/-- Exhaustive check of the A-law combination step: any exponent below 8 and
mantissa below 16, xored with 0x55 and ored with either sign byte, stays a
byte. -/
theorem alaw_combine_le :
    ∀ e < 8, ∀ m < 16,
      ((((e <<< 4) ||| m) ^^^ 0x55) ||| 0 ≤ 255) ∧
      ((((e <<< 4) ||| m) ^^^ 0x55) ||| 128 ≤ 255) := by decide

/-- Exhaustive check of the μ-law combination step for both sign bytes. -/
theorem ulaw_combine_le :
    ∀ e < 8, ∀ m < 16,
      (((e <<< 4) ||| m) ^^^ 0xFF ≤ 255) ∧ (((e <<< 4) ||| m) ^^^ 0x7F ≤ 255) := by decide

/-- The spec A-law exponent is at most 7. -/
theorem specAlawExponent_le (mag : Nat) : specAlawExponent mag ≤ 7 := by
  unfold specAlawExponent
  split_ifs <;> omega

/-- The μ-law exponent loop returns at most 7. -/
theorem ulawFindExp_le (biased : Nat) : ulawFindExp biased ulawExps ≤ 7 := by
  simp only [ulawExps, ulawFindExp]
  split_ifs <;> omega

/-- Claim C10 (confirmed): for every integer input, both companders of
gen-wav-fixtures.py return a byte value in [0, 255] (the return type `Nat`
gives the lower bound), so `struct.pack` with format `B` in the
sample-writing loop can never raise a range error. -/
theorem c10_companders_in_byte_range :
    ∀ x : Int, convert_linear_to_alaw x ≤ 255 ∧ convert_linear_to_ulaw x ≤ 255 := by
  intro x
  constructor
  · simp only [convert_linear_to_alaw, alawExpGo_eq]
    by_cases h32 : (max (-32768) (min x 32767)).natAbs < 32
    · have hm : (max (-32768) (min x 32767)).natAbs >>> 1 < 16 := by
        have := Nat.shiftRight_eq_div_pow (max (-32768) (min x 32767)).natAbs 1
        omega
      by_cases hneg : max (-32768) (min x 32767) < 0 <;>
        simp only [h32, hneg, if_true, if_false] <;>
        first
        | exact (alaw_combine_le 0 (by norm_num) _ hm).1
        | exact (alaw_combine_le 0 (by norm_num) _ hm).2
    · have he : specAlawExponent (max (-32768) (min x 32767)).natAbs < 8 :=
        Nat.lt_succ_of_le (specAlawExponent_le _)
      have hm : ∀ s : Nat, ((max (-32768) (min x 32767)).natAbs >>> s) &&& 0x0F < 16 :=
        fun s => Nat.lt_succ_of_le (Nat.and_le_right)
      by_cases hneg : max (-32768) (min x 32767) < 0 <;>
        simp only [h32, hneg, if_true, if_false] <;>
        first
        | exact (alaw_combine_le _ he _ (hm _)).1
        | exact (alaw_combine_le _ he _ (hm _)).2
  · simp only [convert_linear_to_ulaw]
    have he : ulawFindExp (min (max (-32767) (min x 32767)).natAbs 32635 + 132) ulawExps < 8 :=
      Nat.lt_succ_of_le (ulawFindExp_le _)
    have hm : ((min (max (-32767) (min x 32767)).natAbs 32635 + 132) >>>
        (ulawFindExp (min (max (-32767) (min x 32767)).natAbs 32635 + 132) ulawExps + 1)) &&&
        0x0F < 16 := Nat.lt_succ_of_le (Nat.and_le_right)
    by_cases hneg : max (-32767) (min x 32767) < 0 <;>
      simp only [hneg, if_true, if_false] <;>
      first
      | exact (ulaw_combine_le _ he _ hm).1
      | exact (ulaw_combine_le _ he _ hm).2

/-! ## 24-bit PCM clamp safety (claim C4) -/

/-- `value = max(-8388608, min(8388607, value))`: the 24-bit clamp of
gen-wav-fixtures.py (lines 159, 224) and generate_wav_fixtures.py
(lines 150, 207). -/
def clamp24 (v : Int) : Int := max (-8388608) (min 8388607 v)

/-- Python `value.to_bytes(3, byteorder=endian, signed=True)`: two's
complement into three bytes; raises `OverflowError` (here `none`) when the
value lies outside the signed 24-bit range.  generate_fixtures.py
(line 132) calls this without any prior clamp. -/
def to_bytes3 (e : Endian) (v : Int) : Option (List Int) :=
  if -8388608 ≤ v ∧ v ≤ 8388607 then
    let u := v % 16777216
    some (match e with
      | .little => [u % 256, u / 256 % 256, u / 65536]
      | .big => [u / 65536, u / 256 % 256, u % 256])
  else none

/-- Reading back three little-endian bytes as a signed 24-bit integer. -/
def sint24le (bs : List Int) : Int :=
  match bs with
  | [b0, b1, b2] =>
    let u := b0 + 256 * b1 + 65536 * b2
    if u < 8388608 then u else u - 16777216
  | _ => 0

/-- Reading back three bytes in the configured byte order. -/
def sint24 (e : Endian) (bs : List Int) : Int :=
  match e with
  | .little => sint24le bs
  | .big => sint24le bs.reverse

/-- Python `int(q)` on a real value: truncation toward zero. -/
def truncQ (q : ℚ) : Int := if 0 ≤ q then ⌊q⌋ else ⌈q⌉

/-- `value = int(sample_float * max_value)` with
`max_value = 2 ** (24 - 1) - 1`: the pre-clamp scaled 24-bit sample. -/
def scaled24 (q : ℚ) : Int := truncQ (q * 8388607)

/-- Whenever `to_bytes3` succeeds, the input was already in signed 24-bit
range and the written bytes decode back to exactly that value — Python
`int.to_bytes` never wraps. -/
theorem sint24_to_bytes3 (e : Endian) (v : Int) (bs : List Int)
    (h : to_bytes3 e v = some bs) :
    (-8388608 ≤ v ∧ v ≤ 8388607) ∧ sint24 e bs = v := by
  unfold to_bytes3 at h
  split_ifs at h with hr
  refine ⟨hr, ?_⟩
  cases e <;> simp only [Option.some.injEq] at h <;> subst h <;>
    simp only [sint24, sint24le, List.reverse_cons, List.reverse_nil,
      List.nil_append, List.cons_append] <;>
    split_ifs <;> omega

/-- Claim C4 (confirmed): the clamping writers always emit an in-range
24-bit value that decodes back to the clamp of the scaled sample; the
non-clamping writer (generate_fixtures.py) only ever emits bytes for
in-range values and errors otherwise, so out-of-range values never wrap
into the byte stream; and the actual sine/sweep samples, having magnitude
at most 1, always scale into the representable range. -/
theorem c4_pcm24_in_range :
    ∀ (v : Int) (e : Endian) (q : ℚ),
      (∃ bs, to_bytes3 e (clamp24 v) = some bs ∧ sint24 e bs = clamp24 v ∧
        -8388608 ≤ clamp24 v ∧ clamp24 v ≤ 8388607) ∧
      (∀ bs, to_bytes3 e v = some bs →
        (-8388608 ≤ v ∧ v ≤ 8388607) ∧ sint24 e bs = v) ∧
      (|q| ≤ 1 → -8388607 ≤ scaled24 q ∧ scaled24 q ≤ 8388607) := by
  intro v e q
  refine ⟨?_, fun bs h => sint24_to_bytes3 e v bs h, ?_⟩
  · have hr : -8388608 ≤ clamp24 v ∧ clamp24 v ≤ 8388607 := by
      unfold clamp24; omega
    have hsome : ∃ bs, to_bytes3 e (clamp24 v) = some bs := by
      unfold to_bytes3
      rw [if_pos hr]
      exact ⟨_, rfl⟩
    obtain ⟨bs, hbs⟩ := hsome
    exact ⟨bs, hbs, (sint24_to_bytes3 e _ bs hbs).2, hr.1, hr.2⟩
  · intro hq
    obtain ⟨hql, hqu⟩ := abs_le.mp hq
    unfold scaled24 truncQ
    split_ifs with h0
    · constructor
      · have : (0 : Int) ≤ ⌊q * 8388607⌋ := Int.floor_nonneg.mpr h0
        omega
      · have h1 : q * 8388607 ≤ 8388607 := by nlinarith
        have := Int.floor_le_floor h1
        simpa using this
    · constructor
      · have h1 : (-8388607 : ℚ) ≤ q * 8388607 := by nlinarith
        have := Int.ceil_le_ceil h1
        simpa using this
      · have : ⌈q * 8388607⌉ ≤ 0 := Int.ceil_le.mpr (by push_cast; linarith)
        omega

/-- Witness for C4 at the concrete out-of-range pre-clamp value 99999999
and the concrete sample 1/2. -/
theorem c4_pcm24_in_range_witness :
    ((-8388608 : Int) ≤ clamp24 99999999 ∧ clamp24 99999999 ≤ 8388607) ∧
    (-8388607 ≤ scaled24 (1 / 2) ∧ scaled24 (1 / 2) ≤ 8388607) := by
  obtain ⟨⟨bs, h1, h2, h3, h4⟩, hmid, hofq⟩ :=
    c4_pcm24_in_range 99999999 Endian.little (1 / 2)
  exact ⟨⟨h3, h4⟩, hofq (abs_le.mpr (by norm_num))⟩

/-! ## 8-bit PCM encoding (claim C6) -/

/-- Rounding to the nearest integer (the spec's `round`). -/
def roundQ (q : ℚ) : Int := ⌊q + 1 / 2⌋

/-- The 8-bit sample encoder of gen-wav-fixtures.py line 153:
`int((sample_float + 1.0) * 127.5)`. -/
def pcm8_encode (s : ℚ) : Int := truncQ ((s + 1) * 127.5)

namespace GWF

/-- The 8-bit sample encoder of generate_wav_fixtures.py line 143,
textually identical to the gen-wav-fixtures.py one. -/
def pcm8_encode (s : ℚ) : Int := truncQ ((s + 1) * 127.5)

end GWF

namespace GenFixtures

/-- The 8-bit sample encoder of generate_fixtures.py lines 125-127:
`int((sample_float + 1.0) / 2.0 * max_amplitude)` with
`max_amplitude = 255`. -/
def pcm8_encode (s : ℚ) : Int := truncQ ((s + 1) / 2 * 255)

end GenFixtures

/-- Claim C6 (counterexample): at the normalized sample 0 the encoders
write `int(127.5) = 127`, while `round((0 + 1.0) * 127.5) = 128`; the
encoders truncate rather than round. -/
theorem c6_encoders_do_not_round :
    pcm8_encode 0 ≠ roundQ ((0 + 1) * 127.5) := by
  have h1 : pcm8_encode 0 = 127 := by
    unfold pcm8_encode truncQ
    rw [if_pos (by norm_num)]
    rw [show ((0 : ℚ) + 1) * 127.5 = 127.5 by norm_num]
    rw [Int.floor_eq_iff]
    norm_num
  have h2 : roundQ ((0 + 1) * 127.5) = 128 := by
    unfold roundQ
    rw [show ((0 : ℚ) + 1) * 127.5 + 1 / 2 = 128 by norm_num]
    simp
  rw [h1, h2]
  decide

/-- Claim C6 (corrected, amended part): all three 8-bit PCM encoders agree
and write the *truncation* toward zero of `(sample + 1.0) * 127.5` — the
generate_fixtures.py bias arithmetic `(s + 1) / 2 * 255` is the same
quantity. -/
theorem c6_encoders_truncate :
    ∀ s : ℚ, pcm8_encode s = truncQ ((s + 1) * 127.5) ∧
      GWF.pcm8_encode s = truncQ ((s + 1) * 127.5) ∧
      GenFixtures.pcm8_encode s = truncQ ((s + 1) * 127.5) := by
  intro s
  refine ⟨rfl, rfl, ?_⟩
  unfold GenFixtures.pcm8_encode
  rw [show (s + 1) / 2 * 255 = (s + 1) * 127.5 by ring]

/-! ## RIFF size claims (C3, C7) -/

/-- The data payload of any configuration has even length: 44100 frames
times a whole number of bytes per frame. -/
theorem dataSize_even (c : Config) : dataSize c % 2 = 0 := by
  obtain ⟨codec, bd, ch, e⟩ := c
  simp only [dataSize, blockAlign, totalFrames]
  generalize ch * (bd / 8) = k
  omega

/-- Claim C7 (confirmed): for every configuration, the sweep RIFF size field
of generate_wav_fixtures.py exceeds the one of gen-wav-fixtures.py by
exactly 4, and the gen-wav-fixtures.py value matches the spec contract
`4 + Σ (8 + size + pad)` over the two chunks it writes. -/
theorem c7_sweep_sizes_differ_by_four :
    ∀ c : Config, GWF.sweepFileSize c = GenWav.sweepFileSize c + 4 ∧
      GenWav.sweepFileSize c =
        riffSizeContract ((GenWav.sweepChunks c).map Prod.snd) := by
  intro c
  have h2 := dataSize_even c
  obtain ⟨codec, bd, ch, e⟩ := c
  cases e <;>
    simp [GWF.sweepFileSize, GenWav.sweepFileSize, GenWav.sweepFmtChunk,
      GWF.sweepFmtChunk, GenWav.sweepDataHeader, GWF.sweepDataHeader,
      GenWav.sweepChunks, riffSizeContract, u16, u32, u16le, u32le, fmtId,
      dataId] <;>
    omega

/-- The sweep configuration `{'codec': 'pcm', 'bit_depth': 16,
'channels': 2, 'endian': 'little'}`, first row of `SWEEP_CONFIGS`. -/
def cfgSweepPcm16 : Config := ⟨.pcm, 16, 2, .little⟩

/-- Claim C3 (code bug): at the sweep configuration pcm/16-bit/stereo/LE,
generate_wav_fixtures.py declares RIFF size 176440 while the produced file
has 176444 bytes — the field is file size minus 4, not minus 8.  The other
two generators named by the claim (the sine path of gen-wav-fixtures.py and
generate_fixtures.py) do satisfy `declared = fileSize - 8`. -/
theorem c3_sweep_riff_size_bug :
    GWF.sweepFileSize cfgSweepPcm16 = 176440 ∧
    ∀ p : List Nat, p.length = 176400 →
      (GWF.sweepFileBytes cfgSweepPcm16 p).length = 176444 ∧
      (GenWav.sineFileBytes cfgSweepPcm16 p).length - 8 =
        GenWav.sineFileSize cfgSweepPcm16 ∧
      (GenFixtures.fileBytes cfgSweepPcm16 p).length - 8 =
        GenFixtures.fileSize cfgSweepPcm16 := by
  refine ⟨by decide, ?_⟩
  intro p hp
  refine ⟨?_, ?_, ?_⟩ <;>
    simp [GWF.sweepFileBytes, GWF.sweepFileSize, GWF.sweepFmtChunk,
      GWF.sweepDataHeader, GenWav.sineFileBytes, GenWav.sineFileSize,
      GenWav.sineFmtChunk, GenWav.sineFmtChunkSize, GenWav.factChunk,
      GenWav.sineDataHeader, GenFixtures.fileBytes, GenFixtures.fileSize,
      GenFixtures.fmtChunkData, cfgSweepPcm16, formatTag, riffTag, waveId,
      fmtId, dataId, factId, u16, u32, u16le, u32le, dataSize, blockAlign,
      totalFrames, hp]

/-- Witness for C3: the bug theorem applied to the all-zero payload of the
correct length. -/
theorem c3_sweep_riff_size_bug_witness :
    (GWF.sweepFileBytes cfgSweepPcm16 (List.replicate 176400 0)).length = 176444 ∧
    (GenWav.sineFileBytes cfgSweepPcm16 (List.replicate 176400 0)).length - 8 =
      GenWav.sineFileSize cfgSweepPcm16 ∧
    (GenFixtures.fileBytes cfgSweepPcm16 (List.replicate 176400 0)).length - 8 =
      GenFixtures.fileSize cfgSweepPcm16 :=
  c3_sweep_riff_size_bug.2 (List.replicate 176400 0) (List.length_replicate ..)

/-! ## The `fact` chunk claim (C5) -/

/-- The sine configuration float/32-bit/mono/LE from `FIXTURE_CONFIGS`. -/
def cfgSineFloat : Config := ⟨.float, 32, 1, .little⟩

/-- The sweep configuration float/32-bit/stereo/LE from `SWEEP_CONFIGS`. -/
def cfgSweepFloat : Config := ⟨.float, 32, 2, .little⟩

/-- Claim C5 (code bug): the sine path does write a `fact` chunk carrying
the frame count for the float fixture (format tag 3), but the float sweep
fixtures of both sweep generators and the exotic float32 NaN/Inf fixture
contain no `fact` chunk at all, contradicting the spec's "required whenever
formatTag != 1". -/
theorem c5_fact_chunk_missing :
    formatTag Codec.float = 3 ∧
    (GenWav.sineChunks cfgSineFloat).map Prod.fst = [fmtId, factId, dataId] ∧
    GenWav.factChunk cfgSineFloat = factId ++ u32le 4 ++ u32le 44100 ∧
    factId ∉ (GenWav.sweepChunks cfgSweepFloat).map Prod.fst ∧
    factId ∉ (GWF.sweepChunks cfgSweepFloat).map Prod.fst ∧
    factId ∉ (floatHeaderChunks 176400).map Prod.fst := by decide

/-! ## The float32 NaN/Inf fixture (claim C8)

`create_float32_with_nan_inf` (gen-wav-fixtures.py lines 258-262) and
`float32_nan_inf_wave` (generate_wav_fixtures.py lines 239-243) build
`np.zeros(44100, dtype=np.float32)` and overwrite frames `[100:110]` with
`np.nan` and `[200:210]` with `np.inf`.  Each frame is modelled by its
32-bit IEEE-754 pattern: numpy stores float32 NaN as the quiet NaN
0x7FC00000 and +Infinity as 0x7F800000; zero is the all-zero word. -/

/-- Per-frame 32-bit pattern of the fixture data from gen-wav-fixtures.py. -/
def create_float32_with_nan_inf (i : Nat) : Nat :=
  if 100 ≤ i ∧ i < 110 then 0x7FC00000
  else if 200 ≤ i ∧ i < 210 then 0x7F800000
  else 0

namespace GWF

/-- Per-frame 32-bit pattern of the fixture data from
generate_wav_fixtures.py; the body is identical. -/
def float32_nan_inf_wave (i : Nat) : Nat :=
  if 100 ≤ i ∧ i < 110 then 0x7FC00000
  else if 200 ≤ i ∧ i < 210 then 0x7F800000
  else 0

end GWF

/-- `samples = np.zeros(44100)`: the fixture holds 44100 sample frames. -/
def float32TotalFrames : Nat := 44100

/-- The fields packed into the `fmt ` chunk by a float32 WAV header
builder. -/
structure FloatHeaderFields where
  tag : Nat
  nchannels : Nat
  sample_rate : Nat
  byte_rate : Nat
  block_align : Nat
  bits : Nat
deriving DecidableEq, Repr

/-- `create_float_wav_header` of gen-wav-fixtures.py (lines 278-285):
format tag 3, the given channel count, rate 44100, byte rate, block align
`4 * num_channels`, 32 bits per sample. -/
def create_float_wav_header (nchannels : Nat) : FloatHeaderFields :=
  ⟨3, nchannels, 44100, 44100 * (4 * nchannels), 4 * nchannels, 32⟩

namespace GWF

/-- `write_float_wav_header` of generate_wav_fixtures.py (lines 260-267),
identical field layout. -/
def write_float_wav_header (nchannels : Nat) : FloatHeaderFields :=
  ⟨3, nchannels, 44100, 44100 * (4 * nchannels), 4 * nchannels, 32⟩

end GWF

/-- An IEEE-754 single word denotes NaN: exponent bits all ones and a
non-zero mantissa. -/
def isNaN32 (w : Nat) : Prop := (w >>> 23) &&& 0xFF = 0xFF ∧ w &&& 0x7FFFFF ≠ 0

/-- An IEEE-754 single word denotes +Infinity. -/
def isPosInf32 (w : Nat) : Prop := w = 0x7F800000

instance (w : Nat) : Decidable (isNaN32 w) := by unfold isNaN32; infer_instance

instance (w : Nat) : Decidable (isPosInf32 w) := by unfold isPosInf32; infer_instance

/-- Claim C8 (confirmed): both builders of `exotic_float32_nan_inf.wav`
produce a single-channel, format-tag-3, 32-bit fixture of 44100 frames
whose data holds NaN at frames 100-109, +Infinity at frames 200-209, and
exact zero everywhere else. -/
theorem c8_float32_nan_inf_layout :
    ∀ i : Nat, i < float32TotalFrames →
      ((create_float_wav_header 1).tag = 3 ∧
        (create_float_wav_header 1).nchannels = 1 ∧
        (create_float_wav_header 1).bits = 32 ∧
        (GWF.write_float_wav_header 1).tag = 3 ∧
        (GWF.write_float_wav_header 1).nchannels = 1 ∧
        float32TotalFrames = 44100) ∧
      ((100 ≤ i ∧ i ≤ 109) →
        isNaN32 (create_float32_with_nan_inf i) ∧
        isNaN32 (GWF.float32_nan_inf_wave i)) ∧
      ((200 ≤ i ∧ i ≤ 209) →
        isPosInf32 (create_float32_with_nan_inf i) ∧
        isPosInf32 (GWF.float32_nan_inf_wave i)) ∧
      (¬(100 ≤ i ∧ i ≤ 109) → ¬(200 ≤ i ∧ i ≤ 209) →
        create_float32_with_nan_inf i = 0 ∧ GWF.float32_nan_inf_wave i = 0) := by
  intro i hi
  refine ⟨⟨rfl, rfl, rfl, rfl, rfl, rfl⟩, ?_, ?_, ?_⟩
  · intro h
    have h1 : 100 ≤ i ∧ i < 110 := by omega
    constructor <;>
      · simp only [create_float32_with_nan_inf, GWF.float32_nan_inf_wave, if_pos h1]
        decide
  · intro h
    have h1 : ¬(100 ≤ i ∧ i < 110) := by omega
    have h2 : 200 ≤ i ∧ i < 210 := by omega
    constructor <;>
      · simp only [create_float32_with_nan_inf, GWF.float32_nan_inf_wave,
          if_neg h1, if_pos h2]
        decide
  · intro hA hB
    have h1 : ¬(100 ≤ i ∧ i < 110) := by omega
    have h2 : ¬(200 ≤ i ∧ i < 210) := by omega
    constructor <;>
      simp only [create_float32_with_nan_inf, GWF.float32_nan_inf_wave,
        if_neg h1, if_neg h2]

/-- Witness for C8 at the concrete frames 105 (NaN region) and 205
(Infinity region). -/
theorem c8_float32_nan_inf_layout_witness :
    isNaN32 (create_float32_with_nan_inf 105) ∧
    isPosInf32 (create_float32_with_nan_inf 205) :=
  ⟨((c8_float32_nan_inf_layout 105 (by norm_num [float32TotalFrames])).2.1 (by norm_num)).1,
   ((c8_float32_nan_inf_layout 205 (by norm_num [float32TotalFrames])).2.2.1 (by norm_num)).1⟩


/-! ## The malformed-fixture generator (claim C9)

`scripts/gen_evil_wav_fixtures.py` writes 24 malformed files from fixed
byte recipes.  Each recipe below is the exact concatenation of the
`struct.pack` calls and literals of `generate_evil_wavs` (lines 13-125). -/

namespace Evil

/-- `std_fmt`: the 16 literal bytes of the reference `fmt ` payload. -/
def std_fmt : List Nat :=
  [0x01, 0x00, 0x01, 0x00, 0x44, 0xac, 0x00, 0x00,
   0x88, 0x58, 0x01, 0x00, 0x02, 0x00, 0x10, 0x00]

/-- `struct.pack('<4sI', id, n)`: a chunk header. -/
def chunkHdr (id : List Nat) (n : Nat) : List Nat := id ++ u32le n

/-- `struct.pack('<4sI4s', b'RIFF', n, sig)`: a RIFF header with the given
size field and format signature. -/
def riffHdr (n : Nat) (sig : List Nat) : List Nat :=
  [82, 73, 70, 70] ++ u32le n ++ sig

/-- `std_data_chunk = struct.pack('<4sI', b'data', 32) + b'\x00' * 32`. -/
def std_data_chunk : List Nat := chunkHdr dataId 32 ++ List.replicate 32 0

/-- The four ASCII bytes of `b'WXYZ'`. -/
def wxyzId : List Nat := [87, 88, 89, 90]

/-- The four ASCII bytes of `b'LIST'`. -/
def listChunkId : List Nat := [76, 73, 83, 84]

/-- The four ASCII bytes of `b'INFO'`. -/
def infoId : List Nat := [73, 78, 70, 79]

/-- The four ASCII bytes of the corrupted id `b'fmx '`. -/
def fmxId : List Nat := [102, 109, 120, 32]

/-- `bad_fmt`: invalid format tag 0x99. -/
def bad_fmt : List Nat :=
  [0x99, 0x00, 0x01, 0x00, 0x44, 0xac, 0x00, 0x00,
   0x88, 0x58, 0x01, 0x00, 0x02, 0x00, 0x10, 0x00]

/-- `zero_ch_fmt`: zero channel count. -/
def zero_ch_fmt : List Nat :=
  [0x01, 0x00, 0x00, 0x00, 0x44, 0xac, 0x00, 0x00,
   0x88, 0x58, 0x01, 0x00, 0x02, 0x00, 0x10, 0x00]

/-- `extreme_ch_fmt`: channel count 65535. -/
def extreme_ch_fmt : List Nat :=
  [0x01, 0x00, 0xff, 0xff, 0x44, 0xac, 0x00, 0x00,
   0x88, 0x58, 0x01, 0x00, 0x02, 0x00, 0x10, 0x00]

/-- `zero_sr_fmt`: zero sample rate. -/
def zero_sr_fmt : List Nat :=
  [0x01, 0x00, 0x01, 0x00, 0x00, 0x00, 0x00, 0x00,
   0x88, 0x58, 0x01, 0x00, 0x02, 0x00, 0x10, 0x00]

/-- `bad_bits_fmt`: bit depth 13. -/
def bad_bits_fmt : List Nat :=
  [0x01, 0x00, 0x01, 0x00, 0x44, 0xac, 0x00, 0x00,
   0x88, 0x58, 0x01, 0x00, 0x02, 0x00, 0x0d, 0x00]

/-- `bad_align_fmt`: two channels but block align 1. -/
def bad_align_fmt : List Nat :=
  [0x01, 0x00, 0x02, 0x00, 0x44, 0xac, 0x00, 0x00,
   0x88, 0x58, 0x01, 0x00, 0x01, 0x00, 0x10, 0x00]

/-- `float_fmt`: IEEE-float format tag with float32 field values. -/
def float_fmt : List Nat :=
  [0x03, 0x00, 0x01, 0x00, 0x44, 0xac, 0x00, 0x00,
   0x10, 0xb1, 0x02, 0x00, 0x04, 0x00, 0x20, 0x00]

/-- `struct.pack('<h', v)`: one little-endian signed 16-bit sample. -/
def s16le (v : Int) : List Nat := u16le ((v % 65536).toNat)

/-- `struct.pack('<8h', 1000, -1000, 2000, -2000, 0, 32767, -32768, 100)`,
the integer payload of the float-format recipe. -/
def int_data : List Nat :=
  (([1000, -1000, 2000, -2000, 0, 32767, -32768, 100] : List Int).map s16le).flatten

/-- `generate_evil_wavs`: the full list of (filename, file bytes) pairs
written by gen_evil_wav_fixtures.py, in program order.  The function takes
a `Unit` argument standing for one invocation of the generator; it reads
no other input. -/
def generate_evil_wavs (_u : Unit) : List (String × List Nat) :=
  [("evil_small_riff.wav",
      riffHdr 20 waveId ++ chunkHdr fmtId 16 ++ std_fmt ++ std_data_chunk),
   ("evil_big_riff.wav",
      riffHdr 99999 waveId ++ chunkHdr fmtId 16 ++ std_fmt ++ std_data_chunk),
   ("evil_multi_data_chunks.wav",
      riffHdr 100 waveId ++ chunkHdr fmtId 16 ++ std_fmt ++
        chunkHdr dataId 0 ++ chunkHdr dataId 32 ++ List.replicate 32 1),
   ("evil_data_before_fmt.wav",
      riffHdr 60 waveId ++ chunkHdr dataId 32 ++ List.replicate 32 0 ++
        chunkHdr fmtId 16 ++ std_fmt),
   ("evil_odd_chunk_size.wav",
      riffHdr 60 waveId ++ chunkHdr fmtId 17 ++ std_fmt ++ [0] ++
        chunkHdr dataId 33 ++ List.replicate 33 0 ++ [0]),
   ("evil_truncated.wav",
      riffHdr 40 waveId ++ chunkHdr fmtId 16 ++ std_fmt ++
        chunkHdr dataId 32 ++ List.replicate 10 0),
   ("evil_no_fmt_chunk.wav", riffHdr 36 waveId ++ std_data_chunk),
   ("evil_no_data_chunk.wav",
      riffHdr 28 waveId ++ chunkHdr fmtId 16 ++ std_fmt),
   ("evil_zero_fmt_size.wav",
      riffHdr 40 waveId ++ chunkHdr fmtId 0 ++ std_data_chunk),
   ("evil_tiny_fmt.wav",
      riffHdr 30 waveId ++ chunkHdr fmtId 8 ++
        [0x01, 0x00, 0x01, 0x00, 0x44, 0xac, 0x00, 0x00] ++ std_data_chunk),
   ("evil_bad_format_tag.wav",
      riffHdr 44 waveId ++ chunkHdr fmtId 16 ++ bad_fmt ++ std_data_chunk),
   ("evil_zero_channels.wav",
      riffHdr 44 waveId ++ chunkHdr fmtId 16 ++ zero_ch_fmt ++ std_data_chunk),
   ("evil_extreme_channels.wav",
      riffHdr 44 waveId ++ chunkHdr fmtId 16 ++ extreme_ch_fmt ++ std_data_chunk),
   ("evil_zero_sample_rate.wav",
      riffHdr 44 waveId ++ chunkHdr fmtId 16 ++ zero_sr_fmt ++ std_data_chunk),
   ("evil_bad_bit_depth.wav",
      riffHdr 44 waveId ++ chunkHdr fmtId 16 ++ bad_bits_fmt ++ std_data_chunk),
   ("evil_bad_block_align.wav",
      riffHdr 44 waveId ++ chunkHdr fmtId 16 ++ bad_align_fmt ++ std_data_chunk),
   ("evil_mixed_endian.wav",
      [82, 73, 70, 88] ++ (u32le 44).reverse ++ waveId ++
        chunkHdr fmtId 16 ++ std_fmt ++ std_data_chunk),
   ("evil_bad_chunk_id.wav",
      riffHdr 44 waveId ++ chunkHdr fmxId 16 ++ std_fmt ++ std_data_chunk),
   ("evil_oversized_chunk.wav",
      riffHdr 44 waveId ++ chunkHdr fmtId 16 ++ std_fmt ++
        chunkHdr dataId 99999 ++ List.replicate 32 0),
   ("evil_empty_file.wav", []),
   ("evil_just_riff.wav", [82, 73, 70, 70]),
   ("evil_bad_wave_signature.wav",
      riffHdr 44 wxyzId ++ chunkHdr fmtId 16 ++ std_fmt ++ std_data_chunk),
   ("evil_nested_chunks.wav",
      riffHdr 60 waveId ++ chunkHdr fmtId 16 ++ std_fmt ++
        listChunkId ++ u32le 20 ++ infoId ++ riffHdr 8 waveId ++ std_data_chunk),
   ("evil_float_fmt_int_data.wav",
      riffHdr 44 waveId ++ chunkHdr fmtId 16 ++ float_fmt ++
        chunkHdr dataId 32 ++ int_data)]

end Evil

/-- Claim C9 (confirmed): two runs of the malformed-fixture generator
produce identical (filename, bytes) lists — the output is a function of
nothing but the fixed recipes — and the run consists of exactly the 24
named files from `evil_small_riff.wav` through
`evil_float_fmt_int_data.wav`. -/
theorem c9_evil_fixtures_deterministic :
    (∀ u v : Unit, Evil.generate_evil_wavs u = Evil.generate_evil_wavs v) ∧
    (Evil.generate_evil_wavs ()).length = 24 ∧
    (Evil.generate_evil_wavs ()).map Prod.fst =
      ["evil_small_riff.wav", "evil_big_riff.wav", "evil_multi_data_chunks.wav",
       "evil_data_before_fmt.wav", "evil_odd_chunk_size.wav", "evil_truncated.wav",
       "evil_no_fmt_chunk.wav", "evil_no_data_chunk.wav", "evil_zero_fmt_size.wav",
       "evil_tiny_fmt.wav", "evil_bad_format_tag.wav", "evil_zero_channels.wav",
       "evil_extreme_channels.wav", "evil_zero_sample_rate.wav",
       "evil_bad_bit_depth.wav", "evil_bad_block_align.wav",
       "evil_mixed_endian.wav", "evil_bad_chunk_id.wav",
       "evil_oversized_chunk.wav", "evil_empty_file.wav", "evil_just_riff.wav",
       "evil_bad_wave_signature.wav", "evil_nested_chunks.wav",
       "evil_float_fmt_int_data.wav"] := by
  refine ⟨fun u v => rfl, rfl, rfl⟩

end WavGen

